import Mathlib

/-!
Shallow embedding of the `cloudinary` Go package (alioygur/cloudinary-go,
file `cloudinary.go`): a minimal Cloudinary HTTP client with signed upload
and delete requests and JSON response decoding.

Machine integers are modelled as `Nat`/`Int` with explicit reduction
modulo `2 ^ 32` where the Go code relies on 32-bit wraparound (inside
SHA-1).  Fallible operations are modelled with `Except`/`Option`.  The
HTTP transport itself is external: requests are embedded as the data the
code builds (URL, method, form fields), and responses as a status code
plus the outcome of reading/parsing the body.
-/

/-! ## SHA-1 (crypto/sha1), executable

The Go code signs requests with `sha1.New()` / `hash.Sum(nil)` and prints
the digest with `fmt.Sprintf("%x", ...)` (lowercase hex).  We implement
SHA-1 over byte lists with `Nat` arithmetic modulo `2 ^ 32`. -/

/-- Truncate to a 32-bit word. -/
def w32 (n : Nat) : Nat := n % 4294967296

/-- Left rotation of a 32-bit word by `n` bits. -/
def rotl (n x : Nat) : Nat := w32 ((x <<< n) ||| (x >>> (32 - n)))

/-- SHA-1 round constant for round `t` (0 ≤ t < 80). -/
def sha1K (t : Nat) : Nat :=
  if t < 20 then 0x5A827999
  else if t < 40 then 0x6ED9EBA1
  else if t < 60 then 0x8F1BBCDC
  else 0xCA62C1D6

/-- SHA-1 round function for round `t`. -/
def sha1F (t b c d : Nat) : Nat :=
  if t < 20 then (b &&& c) ||| ((0xFFFFFFFF ^^^ b) &&& d)
  else if t < 40 then b ^^^ c ^^^ d
  else if t < 60 then (b &&& c) ||| (b &&& d) ||| (c &&& d)
  else b ^^^ c ^^^ d

/-- Big-endian bytes (8 of them) of the 64-bit message bit length. -/
def lenBytes (bitLen : Nat) : List Nat :=
  (List.range 8).map (fun i => (bitLen >>> (56 - 8 * i)) % 256)

/-- SHA-1 padding: append `0x80`, zeros to 56 mod 64, then the 64-bit
big-endian bit length. -/
def padMessage (msg : List Nat) : List Nat :=
  let len := msg.length
  let padZeros := (64 - ((len + 9) % 64)) % 64
  msg ++ [0x80] ++ List.replicate padZeros 0 ++ lenBytes (8 * len)

/-- Group bytes four at a time into big-endian 32-bit words. -/
def bytesToWords : List Nat → List Nat
  | a :: b :: c :: d :: rest => (((a * 256 + b) * 256 + c) * 256 + d) :: bytesToWords rest
  | _ => []

/-- Extend the 16 chunk words to the 80-word message schedule. -/
def extendWords (w : Array Nat) : Array Nat :=
  (List.range 64).foldl
    (fun w i =>
      let t := 16 + i
      w.push (rotl 1 ((w.getD (t - 3) 0) ^^^ (w.getD (t - 8) 0) ^^^
                      (w.getD (t - 14) 0) ^^^ (w.getD (t - 16) 0))))
    w

/-- One SHA-1 compression round on the five-word state. -/
def sha1Round (st : Nat × Nat × Nat × Nat × Nat) (t wt : Nat) :
    Nat × Nat × Nat × Nat × Nat :=
  let (a, b, c, d, e) := st
  (w32 (rotl 5 a + sha1F t b c d + e + sha1K t + wt), a, rotl 30 b, c, d)

/-- Compress one 64-byte chunk into the running hash state. -/
def processChunk (h : List Nat) (chunk : List Nat) : List Nat :=
  let ws := extendWords (bytesToWords chunk).toArray
  match h with
  | [h0, h1, h2, h3, h4] =>
    let st := (List.range 80).foldl (fun st t => sha1Round st t (ws.getD t 0))
      (h0, h1, h2, h3, h4)
    match st with
    | (a, b, c, d, e) => [w32 (h0 + a), w32 (h1 + b), w32 (h2 + c), w32 (h3 + d), w32 (h4 + e)]
  | _ => h

/-- Fold the compression function over all 64-byte chunks; `fuel` is an
upper bound on the number of chunks (structural recursion so that the
kernel can evaluate the hash). -/
def processChunksAux (fuel : Nat) (h : List Nat) (msg : List Nat) : List Nat :=
  match fuel with
  | 0 => h
  | fuel + 1 =>
    if msg = [] then h
    else processChunksAux fuel (processChunk h (msg.take 64)) (msg.drop 64)

/-- Fold the compression function over all 64-byte chunks. -/
def processChunks (h : List Nat) (msg : List Nat) : List Nat :=
  processChunksAux msg.length h msg

/-- Lowercase hex digit for a nibble. -/
def hexDigit (n : Nat) : Char :=
  if n < 10 then Char.ofNat (48 + n) else Char.ofNat (87 + n)

/-- Lowercase hex rendering (8 digits) of a 32-bit word. -/
def wordToHex (w : Nat) : String :=
  String.mk ((List.range 8).map (fun i => hexDigit ((w >>> (28 - 4 * i)) &&& 15)))

/-- The SHA-1 initial state. -/
def sha1Init : List Nat := [0x67452301, 0xEFCDAB89, 0x98BADCFE, 0x10325476, 0xC3D2E1F0]

/-- SHA-1 digest of a byte list, rendered as 40 lowercase hex characters,
exactly as `fmt.Sprintf("%x", hash.Sum(nil))` in the Go code. -/
def sha1Hex (msg : List Nat) : String :=
  String.join ((processChunks sha1Init (padMessage msg)).map wordToHex)

/-- UTF-8 encoding of one character (the encoding Go strings use). -/
def utf8Bytes (c : Char) : List Nat :=
  let n := c.toNat
  if n < 0x80 then [n]
  else if n < 0x800 then [0xC0 ||| (n >>> 6), 0x80 ||| (n &&& 0x3F)]
  else if n < 0x10000 then
    [0xE0 ||| (n >>> 12), 0x80 ||| ((n >>> 6) &&& 0x3F), 0x80 ||| (n &&& 0x3F)]
  else
    [0xF0 ||| (n >>> 18), 0x80 ||| ((n >>> 12) &&& 0x3F),
     0x80 ||| ((n >>> 6) &&& 0x3F), 0x80 ||| (n &&& 0x3F)]

/-- UTF-8 bytes of a string, as fed to the hash by `io.WriteString`. -/
def strBytes (s : String) : List Nat := s.data.flatMap utf8Bytes

set_option maxRecDepth 4000 in
/-- Sanity check of the SHA-1 implementation against the standard test
vector `SHA1("abc")`. -/
theorem sha1Hex_test_vector :
    sha1Hex (strBytes "abc") = "a9993e364706816aba3e25717850c26c9cd0d89d" := by decide

/-! ## Data model (`cloudinary.go` lines 21–62) -/

/-- `Cloudinary` struct: the client credentials (lines 26–30). -/
structure Cloudinary where
  cloudName : String
  apiKey : String
  apiSecret : String
deriving DecidableEq, Repr

/-- `UploadType`: the two values used by the package, `ImageType = "image"`
and `VideoType = "video"` (lines 59–62). -/
inductive UploadType where
  | image
  | video
deriving DecidableEq, Repr

/-- The string carried by an `UploadType` constant, as interpolated by
`fmt.Sprintf` with `%s`. -/
def UploadType.str : UploadType → String
  | .image => "image"
  | .video => "video"

/-- `APIError` struct (lines 48–50): a message decoded from the API. -/
structure APIError where
  Message : String
deriving DecidableEq, Repr

/-- `(e *APIError) Error()` returns the bare message (lines 97–99). -/
def APIError.errorString (e : APIError) : String := e.Message

/-- `UploadResponse` struct (lines 32–45).  Note: in the Go source both
`Width` and `Height` carry the json tag `"width"` (line 38 reads
`Height int \x7bjson:"width"\x7d`). -/
structure UploadResponse where
  PublicID : String
  Version : Nat
  Signature : String
  Width : Int
  Height : Int
  Format : String
  ResourceType : String
  CreatedAt : String
  Bytes : Int
  URL : String
  SecureURL : String
deriving DecidableEq, Repr

/-- The zero value of `UploadResponse`, the starting point of
`json.Unmarshal` into a fresh struct. -/
def UploadResponse.zero : UploadResponse :=
  ⟨"", 0, "", 0, 0, "", "", "", 0, "", ""⟩

/-! ## Client construction (`New`, lines 67–95)

`url.Parse` itself is external (Go standard library); `New` consumes the
parsed URI only through `u.Scheme`, `u.Host`, `u.User.Username()` and
`u.User.Password()`, so we embed `New` over those four components.
`Username()` returns `""` when no user info is present, and `Password()`
returns a presence flag, modelled as `Option String`. -/

/-- The components of a parsed URI that `New` consults. -/
structure ParsedURL where
  scheme : String
  host : String
  username : String
  password : Option String
deriving DecidableEq, Repr

/-- `New` (lines 67–95): validates the parsed URI components and builds
the client; each missing piece yields the source's error message. -/
def New (u : ParsedURL) : Except String Cloudinary :=
  if u.scheme ≠ "cloudinary" then .error "missing cloudinary:// scheme in URI"
  else if u.host = "" then .error "no cloud name provided in URI"
  else if u.username = "" then .error "no api_key provided in URI"
  else
    match u.password with
    | none => .error "no api secret provided in URI"
    | some secret =>
      if secret = "" then .error "no api secret provided in URI"
      else .ok ⟨u.host, u.username, secret⟩

/-! ## Upload request construction (`upload`, lines 111–168)

`time.Now().Unix()` is external; the upload is parameterised by `now`,
the Unix-seconds clock reading, and `strconv.FormatInt(now, 10)` is
`toString` on `Int`.  The multipart body is embedded as the ordered list
of parts the code writes; the HTTP send (lines 170–176) is external. -/

/-- One part of the multipart form body: a text field written by
`w.WriteField`, or the file part created by `w.CreateFormFile` and filled
by `io.Copy`. -/
inductive FormPart where
  | field (key value : String)
  | file (key filename : String) (content : List Nat)
deriving DecidableEq, Repr

/-- The value of the first text field with the given key, if any. -/
def fieldValue : List FormPart → String → Option String
  | [], _ => none
  | .field k v :: rest, key => if k = key then some v else fieldValue rest key
  | .file _ _ _ :: rest, key => fieldValue rest key

/-- An HTTP request as built by the client: method, URL, and body. -/
structure UploadRequest where
  method : String
  url : String
  parts : List FormPart
deriving DecidableEq, Repr

/-- The string signed for an upload (lines 135–139):
`part := fmt.Sprintf("timestamp=%s%s", timestamp, c.apiSecret)`, then if
`name != ""`, `part = fmt.Sprintf("public_id=%s&%s", name, part)`. -/
def uploadSignedString (name timestamp apiSecret : String) : String :=
  let part := "timestamp=" ++ timestamp ++ apiSecret
  if name ≠ "" then "public_id=" ++ name ++ "&" ++ part else part

/-- `upload` (lines 111–168): the request the code builds from the file
content `r`, the optional `name`, the upload type and the clock reading
`now`.  `baseURL = "https://api.cloudinary.com/v1_1/%s/%s/%s"` (line 55)
is instantiated with the cloud name, the upload type and `"upload"`. -/
def upload (c : Cloudinary) (r : List Nat) (name : String) (ut : UploadType)
    (now : Int) : UploadRequest :=
  let publicIdParts : List FormPart := if name ≠ "" then [.field "public_id" name] else []
  let timestamp := toString now
  let signature := sha1Hex (strBytes (uploadSignedString name timestamp c.apiSecret))
  { method := "POST"
    url := "https://api.cloudinary.com/v1_1/" ++ c.cloudName ++ "/" ++ ut.str ++ "/upload"
    parts := publicIdParts ++
      [.field "api_key" c.apiKey,
       .field "timestamp" timestamp,
       .field "signature" signature,
       .file "file" "file" r] }

/-! ## Delete request construction (`delete`, lines 190–206) -/

/-- A URL-encoded POST request as built by `delete` and sent with
`http.PostForm`; `fields` models the `url.Values` contents. -/
structure DeleteRequest where
  method : String
  url : String
  fields : List (String × String)
deriving DecidableEq, Repr

/-- `delete`, request-building half (lines 190–206): the `url.Values`
with `api_key`, `public_id`, `timestamp`, and the `signature` set to the
SHA-1 hex of `fmt.Sprintf("public_id=%s&timestamp=%s%s", name, timestamp,
c.apiSecret)` (line 200, `public_id` unconditionally first). -/
def deleteRequest (c : Cloudinary) (name : String) (ut : UploadType)
    (now : Int) : DeleteRequest :=
  let timestamp := toString now
  let signature :=
    sha1Hex (strBytes ("public_id=" ++ name ++ "&timestamp=" ++ timestamp ++ c.apiSecret))
  { method := "POST"
    url := "https://api.cloudinary.com/v1_1/" ++ c.cloudName ++ "/" ++ ut.str ++ "/destroy"
    fields := [("api_key", c.apiKey), ("public_id", name),
               ("timestamp", timestamp), ("signature", signature)] }

/-! ## JSON values and `encoding/json` decoding into the target structs

A decoded JSON document.  Numbers are modelled as integers (no claim
involves fractional numbers). -/

/-- A JSON value. -/
inductive JVal where
  | null
  | bool (b : Bool)
  | num (n : Int)
  | str (s : String)
  | arr (elems : List JVal)
  | obj (fields : List (String × JVal))

/-- Lookup of a key in a JSON object.  Go's `encoding/json` processes the
keys in order and a later duplicate overwrites an earlier one, so the
last binding wins. -/
def jLookup (key : String) (fields : List (String × JVal)) : Option JVal :=
  fields.foldl (fun acc p => if p.1 = key then some p.2 else acc) none

/-- `json.Unmarshal` into the anonymous struct
`struct \x7b Result string `json:"result"` \x7d` used by `delete`
(lines 211–213): a JSON object whose `result` key holds a string sets the
field; a missing key leaves the zero value `""`; `null` leaves the struct
untouched; any other shape is a type error.  (Go's case-insensitive key
fallback is not modelled; no claim involves differently-cased keys.) -/
def decodeDeleteResult (j : JVal) : Except String String :=
  match j with
  | .null => .ok ""
  | .obj fields =>
    match jLookup "result" fields with
    | none => .ok ""
    | some (.str s) => .ok s
    | some _ => .error "json: cannot unmarshal into Go struct field .result of type string"
  | _ => .error "json: cannot unmarshal into Go value of type struct"

/-- `json.Unmarshal` into
`struct \x7b Error APIError `json:"error"` \x7d` used by
`unmarshalResponse` (lines 237–239): the `error` key must hold an object
whose `message` key holds a string; missing keys leave zero values. -/
def decodeErrorEnvelope (j : JVal) : Except String APIError :=
  match j with
  | .null => .ok ⟨""⟩
  | .obj fields =>
    match jLookup "error" fields with
    | none => .ok ⟨""⟩
    | some .null => .ok ⟨""⟩
    | some (.obj efields) =>
      match jLookup "message" efields with
      | none => .ok ⟨""⟩
      | some (.str m) => .ok ⟨m⟩
      | some _ => .error "json: cannot unmarshal into Go struct field APIError.message of type string"
    | some _ => .error "json: cannot unmarshal into Go struct field .error of type cloudinary.APIError"
  | _ => .error "json: cannot unmarshal into Go value of type struct"

/-- One field assignment of `json.Unmarshal` into `UploadResponse`.
Because the struct's `Width` and `Height` fields both carry the json tag
`"width"` (source line 38), Go's field resolution finds two equally
tagged fields for the key `"width"`: neither dominates, so both are
dropped and the key is ignored like an unknown key; the key `"height"`
matches no field at all. -/
def applyUploadField (r : UploadResponse) (key : String) (v : JVal) :
    Except String UploadResponse :=
  match key, v with
  | "public_id", .str s => .ok { r with PublicID := s }
  | "public_id", .null => .ok r
  | "public_id", _ => .error "json: cannot unmarshal into Go struct field UploadResponse.public_id of type string"
  | "version", .num n =>
    if n < 0 then .error "json: cannot unmarshal number into Go struct field UploadResponse.version of type uint"
    else .ok { r with Version := n.toNat }
  | "version", .null => .ok r
  | "version", _ => .error "json: cannot unmarshal into Go struct field UploadResponse.version of type uint"
  | "signature", .str s => .ok { r with Signature := s }
  | "signature", .null => .ok r
  | "signature", _ => .error "json: cannot unmarshal into Go struct field UploadResponse.signature of type string"
  | "format", .str s => .ok { r with Format := s }
  | "format", .null => .ok r
  | "format", _ => .error "json: cannot unmarshal into Go struct field UploadResponse.format of type string"
  | "resource_type", .str s => .ok { r with ResourceType := s }
  | "resource_type", .null => .ok r
  | "resource_type", _ => .error "json: cannot unmarshal into Go struct field UploadResponse.resource_type of type string"
  | "created_at", .str s => .ok { r with CreatedAt := s }
  | "created_at", .null => .ok r
  | "created_at", _ => .error "json: cannot unmarshal into Go struct field UploadResponse.created_at of type string"
  | "bytes", .num n => .ok { r with Bytes := n }
  | "bytes", .null => .ok r
  | "bytes", _ => .error "json: cannot unmarshal into Go struct field UploadResponse.bytes of type int"
  | "url", .str s => .ok { r with URL := s }
  | "url", .null => .ok r
  | "url", _ => .error "json: cannot unmarshal into Go struct field UploadResponse.url of type string"
  | "secure_url", .str s => .ok { r with SecureURL := s }
  | "secure_url", .null => .ok r
  | "secure_url", _ => .error "json: cannot unmarshal into Go struct field UploadResponse.secure_url of type string"
  | _, _ => .ok r

/-- `json.Unmarshal` into `UploadResponse` (used via
`json.NewDecoder(res.Body).Decode(result)` on line 246 with the `result`
allocated on line 175). -/
def decodeUploadResponse (j : JVal) : Except String UploadResponse :=
  match j with
  | .null => .ok UploadResponse.zero
  | .obj fields =>
    fields.foldlM (fun r p => applyUploadField r p.1 p.2) UploadResponse.zero
  | _ => .error "json: cannot unmarshal into Go value of type cloudinary.UploadResponse"

/-! ## Response handling (`unmarshalResponse`, lines 229–247)

An HTTP response is embedded as its status code together with the
outcome of reading and parsing its body: the outer `Except` is the
result of reading the body bytes (`ioutil.ReadAll` or the decoder's
reads), the inner one the result of parsing them as JSON. -/

/-- An HTTP response as consumed by `unmarshalResponse`. -/
structure Response where
  statusCode : Int
  body : Except String (Except String JVal)

/-- Errors surfaced by the client: a typed API error (`*APIError`), or a
wrapped I/O / JSON-decoding error. -/
inductive CError where
  | api (e : APIError)
  | ioOrDecode (msg : String)
deriving DecidableEq, Repr

/-- Observable events on the response body, for the resource-release
claim. -/
inductive Event where
  | readBody
  | closeBody
deriving DecidableEq, Repr

/-- `unmarshalResponse` (lines 229–247), parameterised by the decoder
for the target value (`result interface\x7b\x7d` in Go, resolved by
reflection).  Returns the outcome together with the body events; the
trailing `closeBody` is the `defer res.Body.Close()` on line 230, which
runs on every return path. -/
def unmarshalResponse {α : Type} (res : Response) (dec : JVal → Except String α) :
    Except CError α × List Event :=
  let core : Except CError α :=
    if res.statusCode > 399 ∨ res.statusCode < 200 then
      match res.body with
      | .error e => .error (.ioOrDecode e)
      | .ok (.error parseErr) => .error (.ioOrDecode parseErr)
      | .ok (.ok j) =>
        match decodeErrorEnvelope j with
        | .error decErr => .error (.ioOrDecode decErr)
        | .ok apiErr => .error (.api apiErr)
    else
      match res.body with
      | .error e => .error (.ioOrDecode e)
      | .ok (.error parseErr) => .error (.ioOrDecode parseErr)
      | .ok (.ok j) =>
        match dec j with
        | .error decErr => .error (.ioOrDecode decErr)
        | .ok v => .ok v
  (core, [.readBody, .closeBody])

/-- `upload`, response half (lines 175–176): decode the body into a fresh
`UploadResponse`. -/
def uploadFinish (res : Response) : Except CError UploadResponse × List Event :=
  unmarshalResponse res decodeUploadResponse

/-- `delete`, response half (lines 211–224): decode the body into the
anonymous result struct, then succeed only on `result == "ok"`, otherwise
return `&APIError{result.Result}`. -/
def deleteFinish (res : Response) : Option CError × List Event :=
  let out := unmarshalResponse res decodeDeleteResult
  match out.1 with
  | .error e => (some e, out.2)
  | .ok s => (if s = "ok" then none else some (.api ⟨s⟩), out.2)

/-! ## Theorems -/

/-- The signed upload string for a non-empty name, flattened: prepending
`public_id=<name>&` to `timestamp=<ts><secret>` yields
`public_id=<name>&timestamp=<ts><secret>`. -/
theorem uploadSignedString_nonempty (name t s : String) (h : name ≠ "") :
    uploadSignedString name t s =
      "public_id=" ++ name ++ "&timestamp=" ++ t ++ s := by
  unfold uploadSignedString
  simp only [h, if_pos, ne_eq, not_false_eq_true]
  simp only [← String.append_assoc]
  congr 2
  rw [String.append_assoc]
  rfl

/-- C1: For every upload (image or video) with file content `r`, name and
timestamp `now`: when the name is empty the signature field sent equals
the SHA-1 hex digest of `timestamp=<ts><secret>`, and when the name is
non-empty it equals the SHA-1 hex digest of
`public_id=<name>&timestamp=<ts><secret>`, where `<secret>` is the
client's API secret. -/
theorem upload_signature_spec (c : Cloudinary) (r : List Nat) (name : String)
    (ut : UploadType) (now : Int) :
    (name = "" →
      fieldValue (upload c r name ut now).parts "signature" =
        some (sha1Hex (strBytes ("timestamp=" ++ toString now ++ c.apiSecret)))) ∧
    (name ≠ "" →
      fieldValue (upload c r name ut now).parts "signature" =
        some (sha1Hex (strBytes
          ("public_id=" ++ name ++ "&timestamp=" ++ toString now ++ c.apiSecret)))) := by
  constructor
  · intro h
    subst h
    rfl
  · intro h
    simp [upload, fieldValue, h, uploadSignedString_nonempty name (toString now) c.apiSecret h]

/-- C1 witness: concrete instances of both branches. -/
theorem upload_signature_spec_witness :
    fieldValue (upload ⟨"cloud", "key", "secret"⟩ [1, 2] "" UploadType.image 1234).parts
        "signature" =
      some (sha1Hex (strBytes ("timestamp=" ++ toString (1234 : Int) ++ "secret"))) ∧
    fieldValue (upload ⟨"cloud", "key", "secret"⟩ [1, 2] "testimage" UploadType.video 1234).parts
        "signature" =
      some (sha1Hex (strBytes
        ("public_id=" ++ "testimage" ++ "&timestamp=" ++ toString (1234 : Int) ++ "secret"))) :=
  ⟨(upload_signature_spec ⟨"cloud", "key", "secret"⟩ [1, 2] "" UploadType.image 1234).1 rfl,
   (upload_signature_spec ⟨"cloud", "key", "secret"⟩ [1, 2] "testimage" UploadType.video 1234).2
     (by decide)⟩

/-- C2: For every delete (image or video) with name and timestamp,
including the empty name, the signature field sent equals the SHA-1 hex
digest of `public_id=<name>&timestamp=<ts><secret>` (`public_id`
unconditionally included, fixed field order). -/
theorem delete_signature_spec (c : Cloudinary) (name : String) (ut : UploadType)
    (now : Int) :
    (deleteRequest c name ut now).fields.lookup "signature" =
      some (sha1Hex (strBytes
        ("public_id=" ++ name ++ "&timestamp=" ++ toString now ++ c.apiSecret))) := by
  rfl

/-- C3: The upload multipart body is, in order, `public_id` (only when
the name is non-empty), `api_key`, `timestamp` (the clock reading as a
decimal string), `signature`, then the file content under the key
`file`; the signed string covers exactly `public_id` (when present) and
`timestamp` with the API secret appended, and the secret appears in no
field of its own. -/
theorem upload_form_spec (c : Cloudinary) (r : List Nat) (name : String)
    (ut : UploadType) (now : Int) :
    (upload c r name ut now).parts =
      (if name = "" then [] else [FormPart.field "public_id" name]) ++
      [FormPart.field "api_key" c.apiKey,
       FormPart.field "timestamp" (toString now),
       FormPart.field "signature"
         (sha1Hex (strBytes (uploadSignedString name (toString now) c.apiSecret))),
       FormPart.file "file" "file" r] ∧
    uploadSignedString name (toString now) c.apiSecret =
      (if name = "" then "" else "public_id=" ++ name ++ "&") ++
        "timestamp=" ++ toString now ++ c.apiSecret := by
  constructor
  · by_cases h : name = "" <;> simp [upload, h]
  · by_cases h : name = ""
    · simp [uploadSignedString, h]
    · rw [uploadSignedString_nonempty name (toString now) c.apiSecret h]
      simp only [h, if_neg]
      congr 2
      exact (String.append_assoc ("public_id=" ++ name) "&" "timestamp=").symm

/-- C6 counterexample: the upload URL for cloud name `mycloud` does not
have the form `https://<host>/v1/mycloud/image/upload` for any host —
the path version segment the code builds is `v1_1`, not `v1`. -/
theorem upload_url_v1_counterexample :
    ¬ ∃ host : String,
      (upload ⟨"mycloud", "key", "secret"⟩ [] "" UploadType.image 0).url =
        "https://" ++ host ++ "/v1/mycloud/image/upload" := by
  rintro ⟨host, h⟩
  have h2 : "https://" ++ host ++ "/v1/mycloud/image/upload" =
      "https://api.cloudinary.com/v1_1/mycloud/image/upload" := h.symm
  have h3 : ("https://".data ++ host.data) ++ "/v1/mycloud/image/upload".data =
      "https://api.cloudinary.com/v1_1/mycloud/image/upload".data := by
    have h4 := congrArg String.data h2
    simpa only [String.data_append] using h4
  have e1 : "https://".data.length = 8 := by decide
  have e2 : "/v1/mycloud/image/upload".data.length = 24 := by decide
  have e3 : "https://api.cloudinary.com/v1_1/mycloud/image/upload".data.length = 52 := by
    decide
  have hlen : host.data.length = 20 := by
    have h5 := congrArg List.length h3
    simp only [List.length_append] at h5
    rw [e1, e2, e3] at h5
    omega
  have hsplit : "https://api.cloudinary.com/v1_1/mycloud/image/upload".data =
      "https://api.cloudinary.com/v1_1/mycloud/image/upload".data.take 28 ++
      "https://api.cloudinary.com/v1_1/mycloud/image/upload".data.drop 28 :=
    (List.take_append_drop _ _).symm
  rw [hsplit] at h3
  have hlen2 : ("https://".data ++ host.data).length =
      ("https://api.cloudinary.com/v1_1/mycloud/image/upload".data.take 28).length := by
    rw [List.length_append, e1, hlen]
    decide
  have h6 := List.append_inj_right h3 hlen2
  exact absurd h6 (by decide)

/-- C6 (amended): every upload request is a POST to
`https://api.cloudinary.com/v1_1/<cloud_name>/<image|video>/upload` and
every delete request a POST to
`https://api.cloudinary.com/v1_1/<cloud_name>/<image|video>/destroy`,
the kind segment being `image` for image operations and `video` for
video operations. -/
theorem request_url_spec (c : Cloudinary) (r : List Nat) (name : String)
    (now : Int) :
    UploadType.image.str = "image" ∧ UploadType.video.str = "video" ∧
    ∀ ut : UploadType,
      (upload c r name ut now).method = "POST" ∧
      (upload c r name ut now).url =
        "https://api.cloudinary.com/v1_1/" ++ c.cloudName ++ "/" ++ ut.str ++ "/upload" ∧
      (deleteRequest c name ut now).method = "POST" ∧
      (deleteRequest c name ut now).url =
        "https://api.cloudinary.com/v1_1/" ++ c.cloudName ++ "/" ++ ut.str ++ "/destroy" :=
  ⟨rfl, rfl, fun _ => ⟨rfl, rfl, rfl, rfl⟩⟩

/-- C4: For every delete whose response status is in the success band and
whose body decodes to a result string `s`, the call succeeds (no error)
iff `s = "ok"`, and any other `s` — even one arriving with a 2xx status —
yields an `APIError` whose message is exactly `s`. -/
theorem delete_result_spec (res : Response) (j : JVal) (s : String)
    (hst1 : 200 ≤ res.statusCode) (hst2 : res.statusCode ≤ 399)
    (hb : res.body = .ok (.ok j))
    (hd : decodeDeleteResult j = .ok s) :
    ((deleteFinish res).1 = none ↔ s = "ok") ∧
    (s ≠ "ok" → (deleteFinish res).1 = some (.api ⟨s⟩)) := by
  have hc : ¬ (res.statusCode > 399 ∨ res.statusCode < 200) := by omega
  have heval : (deleteFinish res).1 = if s = "ok" then none else some (.api ⟨s⟩) := by
    simp only [deleteFinish, unmarshalResponse, if_neg hc, hb, hd]
  by_cases hs : s = "ok" <;> simp [heval, hs]

/-- C4 witness: a 200 response whose result is `not found` errors with
that exact message, and one whose result is `ok` succeeds. -/
theorem delete_result_spec_witness :
    (deleteFinish ⟨200, .ok (.ok (.obj [("result", .str "not found")]))⟩).1 =
      some (.api ⟨"not found"⟩) ∧
    (deleteFinish ⟨200, .ok (.ok (.obj [("result", .str "ok")]))⟩).1 = none :=
  ⟨(delete_result_spec ⟨200, .ok (.ok (.obj [("result", .str "not found")]))⟩
      (.obj [("result", .str "not found")]) "not found"
      (by decide) (by decide) rfl rfl).2 (by decide),
   (delete_result_spec ⟨200, .ok (.ok (.obj [("result", .str "ok")]))⟩
      (.obj [("result", .str "ok")]) "ok"
      (by decide) (by decide) rfl rfl).1.mpr rfl⟩

/-- C5: For every operation whose response status lies outside
`[200, 399]`, the shared decoder fails with an `APIError` carrying
exactly the message of the parsed `error.message` envelope; if reading
the body or decoding the envelope fails on this path, the operation
fails with that wrapped I/O or decoding error instead. -/
theorem unmarshalResponse_error_path_spec {α : Type} (res : Response)
    (dec : JVal → Except String α)
    (hst : res.statusCode > 399 ∨ res.statusCode < 200) :
    (∀ e, res.body = .error e →
      (unmarshalResponse res dec).1 = .error (.ioOrDecode e)) ∧
    (∀ perr, res.body = .ok (.error perr) →
      (unmarshalResponse res dec).1 = .error (.ioOrDecode perr)) ∧
    (∀ j m, res.body = .ok (.ok j) → decodeErrorEnvelope j = .ok ⟨m⟩ →
      (unmarshalResponse res dec).1 = .error (.api ⟨m⟩)) ∧
    (∀ j derr, res.body = .ok (.ok j) → decodeErrorEnvelope j = .error derr →
      (unmarshalResponse res dec).1 = .error (.ioOrDecode derr)) := by
  refine ⟨fun e he => ?_, fun perr hp => ?_, fun j m hj hm => ?_, fun j derr hj hderr => ?_⟩ <;>
    simp only [unmarshalResponse, if_pos hst, *] <;> rfl

/-- C5 witness: a 500 response with envelope
`{"error":{"message":"boom"}}` yields an `APIError` with message exactly
`boom` (here on the delete decoder; the decoder argument is irrelevant
on this path). -/
theorem unmarshalResponse_error_path_spec_witness :
    (unmarshalResponse ⟨500, .ok (.ok (.obj [("error", .obj [("message", .str "boom")])]))⟩
        decodeDeleteResult).1 = .error (.api ⟨"boom"⟩) :=
  (unmarshalResponse_error_path_spec
      ⟨500, .ok (.ok (.obj [("error", .obj [("message", .str "boom")])]))⟩
      decodeDeleteResult (by decide)).2.2.1
    (.obj [("error", .obj [("message", .str "boom")])]) "boom" rfl rfl

/-- C7 (code bug): an upload response in the success band carrying
`width` 100 and `height` 50 decodes with `Width = 0` and `Height = 0`
(while `public_id` decodes fine), because both struct fields carry the
json tag `"width"` (source line 38), so Go drops both conflicting fields
and the `height` key matches no field. -/
theorem upload_decode_drops_dimensions :
    ((uploadFinish ⟨200, .ok (.ok (.obj
        [("public_id", .str "testimage"), ("width", .num 100), ("height", .num 50)]))⟩).1.map
      (fun r => (r.PublicID, r.Width, r.Height))) =
      .ok ("testimage", 0, 0) := by
  rfl

/-- C9: on every path of the shared response decoder — and hence of the
upload and delete response handling that calls it — the response body is
closed (the deferred close event is in the trace of every outcome). -/
theorem body_always_closed {α : Type} (res : Response)
    (dec : JVal → Except String α) :
    Event.closeBody ∈ (unmarshalResponse res dec).2 ∧
    Event.closeBody ∈ (uploadFinish res).2 ∧
    Event.closeBody ∈ (deleteFinish res).2 := by
  refine ⟨?_, ?_, ?_⟩
  · simp [unmarshalResponse]
  · simp [uploadFinish, unmarshalResponse]
  · simp only [deleteFinish, unmarshalResponse]
    split <;> simp

/-- C8: construction succeeds iff the parsed URI has scheme
`cloudinary`, a non-empty host, a non-empty user-info username, and a
present non-empty password; on success the client fields equal the
parsed components exactly, and each missing piece fails with the
descriptive error naming it. -/
theorem New_spec (u : ParsedURL) :
    ((∃ c, New u = .ok c) ↔
      (u.scheme = "cloudinary" ∧ u.host ≠ "" ∧ u.username ≠ "" ∧
        ∃ s, u.password = some s ∧ s ≠ "")) ∧
    (∀ c, New u = .ok c →
      c.cloudName = u.host ∧ c.apiKey = u.username ∧ u.password = some c.apiSecret) ∧
    (u.scheme ≠ "cloudinary" → New u = .error "missing cloudinary:// scheme in URI") ∧
    (u.scheme = "cloudinary" → u.host = "" →
      New u = .error "no cloud name provided in URI") ∧
    (u.scheme = "cloudinary" → u.host ≠ "" → u.username = "" →
      New u = .error "no api_key provided in URI") ∧
    (u.scheme = "cloudinary" → u.host ≠ "" → u.username ≠ "" →
      (u.password = none ∨ u.password = some "") →
      New u = .error "no api secret provided in URI") := by
  obtain ⟨sc, ho, us, pw⟩ := u
  rcases pw with _ | s
  · by_cases hsc : sc = "cloudinary" <;> by_cases hho : ho = "" <;>
      by_cases hus : us = "" <;>
      simp [New, hsc, hho, hus]
  · by_cases hsc : sc = "cloudinary" <;> by_cases hho : ho = "" <;>
      by_cases hus : us = "" <;> by_cases hs : s = "" <;>
      simp [New, hsc, hho, hus, hs]

/-- C8 witness: each validation failure at a concrete URI, and a
concrete success. -/
theorem New_spec_witness :
    New ⟨"wrongscheme", "cloudname", "apikey", some "apisecret"⟩ =
      .error "missing cloudinary:// scheme in URI" ∧
    New ⟨"cloudinary", "", "apikey", some "apisecret"⟩ =
      .error "no cloud name provided in URI" ∧
    New ⟨"cloudinary", "cloudname", "", some "apisecret"⟩ =
      .error "no api_key provided in URI" ∧
    New ⟨"cloudinary", "cloudname", "apikey", none⟩ =
      .error "no api secret provided in URI" ∧
    New ⟨"cloudinary", "cloudname", "apikey", some ""⟩ =
      .error "no api secret provided in URI" ∧
    (∃ c, New ⟨"cloudinary", "cloudname", "apikey", some "apisecret"⟩ = .ok c) :=
  ⟨(New_spec ⟨"wrongscheme", "cloudname", "apikey", some "apisecret"⟩).2.2.1 (by decide),
   (New_spec ⟨"cloudinary", "", "apikey", some "apisecret"⟩).2.2.2.1 rfl rfl,
   (New_spec ⟨"cloudinary", "cloudname", "", some "apisecret"⟩).2.2.2.2.1 rfl (by decide) rfl,
   (New_spec ⟨"cloudinary", "cloudname", "apikey", none⟩).2.2.2.2.2 rfl (by decide) (by decide)
     (Or.inl rfl),
   (New_spec ⟨"cloudinary", "cloudname", "apikey", some ""⟩).2.2.2.2.2 rfl (by decide) (by decide)
     (Or.inr rfl),
   (New_spec ⟨"cloudinary", "cloudname", "apikey", some "apisecret"⟩).1.mpr
     ⟨rfl, by decide, by decide, "apisecret", rfl, by decide⟩⟩
